import Mathlib

/-!
Verification of the report-renderer module (`pdf-generator.js`).

The module is a single class `PDFGenerator` with a boolean busy flag
`isGenerating`, operations `generateReport` / `simulatePDFGeneration` /
`generatePDFContent` / `generateFilename` / `generatePrintableHTML` /
`generateHTMLSections` / `printHTMLReport`.

Shallow-embedding conventions:
* JS objects become structures; a per-language string map (`{ar, en}` keys)
  becomes `LangMap` with `Option String` entries (a missing property is
  `none`, i.e. `undefined`).
* Numeric percentage fields become `Int` (the values the module handles are
  plain integers rendered with decimal `toString`, as in JS template
  interpolation).
* The mutable instance field `this.isGenerating`, together with the
  caller-owned analysis-result object the operations receive by reference,
  becomes an explicit `RendererState` threaded through the stateful
  operations; each such operation returns its result together with the
  post-call state.
* Host-environment primitives are parameters: the current date
  (`new Date().toISOString().split('T')[0]` and `toLocaleDateString`)
  becomes a `JsDate` record; `URL.createObjectURL` becomes a deterministic
  wrapper `BlobURL` around the blob content; the window returned by
  `window.open` becomes an `Option PrintWindow` argument (`none` = the
  host blocked the popup and `window.open` returned `null`).
* The `await` of the simulated delay inside `simulatePDFGeneration` is the
  suspension point of `generateReport`; whether the awaited step succeeds
  or rejects is modelled by a `work : Option JsError` parameter (`none` =
  the simulated generation resolves, `some e` = it rejects with `e`), so
  the `try ... finally` release semantics are visible on both exit paths.
* A thrown JS exception becomes `Except.error` carrying a `JsError`
  (its `name` is the JS error class, its `message` the message); member
  access on `null` throws a `TypeError` in JS and is modelled the same way.
-/

/-- A per-language string map with the two language keys `ar` and `en`.
A field holding `none` models an absent (`undefined`) property. -/
structure LangMap where
  ar : Option String
  en : Option String

/-- JS property access `m[language]` on a per-language map: any key other
than the two present ones reads as `undefined`. -/
def LangMap.get (m : LangMap) (language : String) : Option String :=
  if language = "ar" then m.ar else if language = "en" then m.en else none

/-- `analysisResults.breed`. -/
structure BreedInfo where
  name : LangMap
  confidence : Int

/-- `analysisResults.weight`. -/
structure WeightInfo where
  estimated : String
  method : LangMap
  errorMargin : String

/-- `analysisResults.disease`. -/
structure DiseaseInfo where
  name : LangMap
  probability : Int

/-- `analysisResults.treatment`. -/
structure TreatmentInfo where
  medication : LangMap
  dosage : LangMap
  duration : LangMap
  warnings : LangMap

/-- The externally supplied `analysisResults` record. -/
structure AnalysisResult where
  overallConfidence : Int
  breed : BreedInfo
  weight : WeightInfo
  disease : DiseaseInfo
  treatment : TreatmentInfo

/-- A thrown JS error: its constructor name (`Error`, `TypeError`, ...) and
its message. -/
structure JsError where
  name : String
  message : String

/-- The host date capability: `new Date().toISOString().split('T')[0]`
(the ISO calendar-date part) and `new Date().toLocaleDateString(locale)`. -/
structure JsDate where
  isoDate : String
  toLocaleDateString : String → String

/-- Decides whether a string has the `YYYY-MM-DD` shape (ten characters:
four digits, a dash, two digits, a dash, two digits); the shape of the ISO
calendar-date part produced by the host `toISOString`. -/
def isoShapeB (s : String) : Bool :=
  match s.data with
  | [y1, y2, y3, y4, h1, m1, m2, h2, d1, d2] =>
      y1.isDigit && y2.isDigit && y3.isDigit && y4.isDigit && (h1 == '-') &&
      m1.isDigit && m2.isDigit && (h2 == '-') && d1.isDigit && d2.isDigit
  | _ => false

/-- JS template-literal interpolation `${x}` of a possibly-undefined string
property: `undefined` renders as the text `undefined`. -/
def jsStr : Option String → String
  | none => "undefined"
  | some s => s

/-- JS `x || d` for a possibly-undefined string `x`: `undefined` and the
empty string are falsy and yield the default `d`. -/
def jsOr (v : Option String) (d : String) : String :=
  match v with
  | none => d
  | some s => if s = "" then d else s

/-- The renderer instance state: the `this.isGenerating` busy flag together
with the caller-owned `analysisResults` object the operations receive by
reference (tracked so that mutation of the record would be observable). -/
structure RendererState where
  isGenerating : Bool
  record : AnalysisResult

/-- An opaque in-memory handle to blob content, as returned by
`URL.createObjectURL`. -/
structure BlobURL where
  content : String

/-- The artifact returned by `generateReport`: the simulated PDF blob
content, its object URL and the filename. -/
structure PDFData where
  pdfContent : String
  url : BlobURL
  filename : String

/-- The fixed text of the simulated PDF before the localized title. -/
def pdfPre : String :=
  "\n            %PDF-1.4\n            1 0 obj\n            << /Type /Catalog /Pages 2 0 R >>\n            endobj\n            2 0 obj\n            << /Type /Pages /Kids [3 0 R] /Count 1 >>\n            endobj\n            3 0 obj\n            << /Type /Page /Parent 2 0 R /MediaBox [0 0 612 792] /Contents 4 0 R >>\n            endobj\n            4 0 obj\n            << /Length 100 >>\n            stream\n            BT\n            /F1 12 Tf\n            50 750 Td\n            ("

/-- The fixed text of the simulated PDF after the localized title. -/
def pdfPost : String :=
  ") Tj\n            ET\n            endstream\n            endobj\n            xref\n            0 5\n            0000000000 65535 f \n            0000000009 00000 n \n            0000000058 00000 n \n            0000000115 00000 n \n            0000000234 00000 n \n            trailer\n            << /Size 5 /Root 1 0 R >>\n            startxref\n            295\n            %%EOF\n        "

/-- The localized report title used in the simulated PDF stream. -/
def pdfTitle (language : String) : String :=
  if language = "ar" then "تقرير التشخيص الشامل" else "Comprehensive Diagnosis Report"

/-- `generatePDFContent(analysisResults, language)`: the simulated PDF
source text; only the localized title is interpolated. -/
def generatePDFContent (_analysisResults : AnalysisResult) (language : String) : String :=
  pdfPre ++ (if language = "ar" then "تقرير التشخيص الشامل" else "Comprehensive Diagnosis Report") ++ pdfPost

/-- `generateFilename(analysisResults, language)`. -/
def generateFilename (analysisResults : AnalysisResult) (language : String) (env : JsDate) : String :=
  let timestamp := env.isoDate
  let diseaseName := jsOr (analysisResults.disease.name.get language) "unknown"
  if language = "ar" then
    "تقرير-التشخيص-" ++ diseaseName ++ "-" ++ timestamp ++ ".pdf"
  else
    "diagnosis-report-" ++ diseaseName ++ "-" ++ timestamp ++ ".pdf"

/-- The error thrown by the busy guard:
`new Error('PDF generation already in progress')`. -/
def conflictError : JsError :=
  { name := "Error", message := "PDF generation already in progress" }

/-- `simulatePDFGeneration(analysisResults, language)`: after the awaited
delay (whose outcome is the `work` parameter), builds the blob, its object
URL and the filename from the record held in the renderer state. -/
def simulatePDFGeneration (language : String) (env : JsDate) (work : Option JsError)
    (s : RendererState) : Except JsError PDFData × RendererState :=
  match work with
  | some e => (Except.error e, s)
  | none =>
      let pdfContent := generatePDFContent s.record language
      (Except.ok { pdfContent := pdfContent, url := { content := pdfContent },
                   filename := generateFilename s.record language env }, s)

/-- The localized `<title>`/`<h1>` text of the printable document. -/
def printableTitle (language : String) : String :=
  if language = "ar" then "تقرير التشخيص الشامل" else "Comprehensive Diagnosis Report"

/-- The localized subtitle line of the printable document header. -/
def printableSubtitle (language : String) : String :=
  if language = "ar" then "نظام تشخيص صحة الدجاج بالذكاء الاصطناعي" else "AI-Powered Chicken Health Diagnosis System"

/-- The localized heading of the confidence-indicator block. -/
def confidenceTitle (language : String) : String :=
  if language = "ar" then "مؤشر الثقة العام" else "Overall Confidence Indicator"

/-- The localized `<strong>` label of the disclaimer block. -/
def importantNoteLabel (language : String) : String :=
  if language = "ar" then "ملاحظة هامة:" else "Important Note:"

/-- The localized body text of the disclaimer block. -/
def importantNoteBody (language : String) : String :=
  if language = "ar" then
    "هذه النتائج استرشادية وتحتاج لتأكيد من طبيب بيطري متخصص. لا تستبدل التشخيص الطبي المهني."
  else
    "These results are indicative and require confirmation from a specialized veterinarian. They do not replace professional medical diagnosis."

/-- The localized title of the breed section. -/
def breedTitle (language : String) : String :=
  if language = "ar" then "نوع الدجاجة" else "Chicken Breed"

/-- The localized title of the weight section. -/
def weightTitle (language : String) : String :=
  if language = "ar" then "الوزن التقديري" else "Estimated Weight"

/-- The localized title of the disease section. -/
def diseaseTitle (language : String) : String :=
  if language = "ar" then "المرض المشتبه به" else "Suspected Disease"

/-- The localized title of the treatment section. -/
def treatmentTitle (language : String) : String :=
  if language = "ar" then "طريقة العلاج" else "Treatment"

/-- One entry of the `sections` array in `generateHTMLSections`. -/
structure HtmlSection where
  title : String
  content : String

/-- The content template of the breed section. -/
def breedContent (analysisResults : AnalysisResult) (language : String) : String :=
  "\n                    <p><strong>" ++ jsStr (analysisResults.breed.name.get language) ++
  "</strong></p>\n                    <p>" ++
  (if language = "ar" then "نسبة الثقة:" else "Confidence:") ++ " " ++
  toString analysisResults.breed.confidence ++ "%</p>\n                "

/-- The content template of the weight section. -/
def weightContent (analysisResults : AnalysisResult) (language : String) : String :=
  "\n                    <p><strong>" ++ analysisResults.weight.estimated ++
  "</strong></p>\n                    <p>" ++ jsStr (analysisResults.weight.method.get language) ++
  "</p>\n                    <p>" ++
  (if language = "ar" then "هامش الخطأ:" else "Error Margin:") ++ " " ++
  analysisResults.weight.errorMargin ++ "</p>\n                "

/-- The content template of the disease section. -/
def diseaseContent (analysisResults : AnalysisResult) (language : String) : String :=
  "\n                    <p><strong>" ++ jsStr (analysisResults.disease.name.get language) ++
  "</strong></p>\n                    <p>" ++
  (if language = "ar" then "نسبة الاحتمال:" else "Probability:") ++ " " ++
  toString analysisResults.disease.probability ++ "%</p>\n                "

/-- The content template of the treatment section. -/
def treatmentContent (analysisResults : AnalysisResult) (language : String) : String :=
  "\n                    <p><strong>" ++
  (if language = "ar" then "الدواء:" else "Medication:") ++ "</strong> " ++
  jsStr (analysisResults.treatment.medication.get language) ++
  "</p>\n                    <p><strong>" ++
  (if language = "ar" then "الجرعة:" else "Dosage:") ++ "</strong> " ++
  jsStr (analysisResults.treatment.dosage.get language) ++
  "</p>\n                    <p><strong>" ++
  (if language = "ar" then "المدة:" else "Duration:") ++ "</strong> " ++
  jsStr (analysisResults.treatment.duration.get language) ++
  "</p>\n                    <p><strong>" ++
  (if language = "ar" then "تحذيرات:" else "Warnings:") ++ "</strong> " ++
  jsStr (analysisResults.treatment.warnings.get language) ++
  "</p>\n                "

/-- The first element of the `sections` array: the breed section. -/
def breedSection (analysisResults : AnalysisResult) (language : String) : HtmlSection :=
  { title := breedTitle language, content := breedContent analysisResults language }

/-- The second element of the `sections` array: the weight section. -/
def weightSection (analysisResults : AnalysisResult) (language : String) : HtmlSection :=
  { title := weightTitle language, content := weightContent analysisResults language }

/-- The third element of the `sections` array: the disease section. -/
def diseaseSection (analysisResults : AnalysisResult) (language : String) : HtmlSection :=
  { title := diseaseTitle language, content := diseaseContent analysisResults language }

/-- The fourth element of the `sections` array: the treatment section. -/
def treatmentSection (analysisResults : AnalysisResult) (language : String) : HtmlSection :=
  { title := treatmentTitle language, content := treatmentContent analysisResults language }

/-- The `sections` array literal of `generateHTMLSections`. -/
def sectionsList (analysisResults : AnalysisResult) (language : String) : List HtmlSection :=
  [breedSection analysisResults language,
   weightSection analysisResults language,
   diseaseSection analysisResults language,
   treatmentSection analysisResults language]

/-- The mapping callback of `generateHTMLSections`: renders one section
entry as a `<div class="section">` block. -/
def renderSection (s : HtmlSection) : String :=
  "\n            <div class=\"section\">\n                <div class=\"section-title\">" ++
  s.title ++ "</div>\n                " ++ s.content ++ "\n            </div>\n        "

/-- `generateHTMLSections(analysisResults, language)`:
`sections.map(...).join('')`. -/
def generateHTMLSections (analysisResults : AnalysisResult) (language : String) : String :=
  String.join ((sectionsList analysisResults language).map renderSection)

/-- Template text from the start of the document to the `dir` attribute. -/
def htmlA : String := "\n            <!DOCTYPE html>\n            <html "

/-- Template text between the `dir` attribute and the `lang` attribute value. -/
def htmlB : String := " lang=\""

/-- Template text from the `lang` attribute to the `<title>` interpolation. -/
def htmlC : String := "\">\n            <head>\n                <meta charset=\"UTF-8\">\n                <title>"

/-- Template text from `</title>` to the CSS `direction` declaration. -/
def htmlD : String := "</title>\n                <style>\n                    body \x7b\n                        font-family: \x27Tajawal\x27, Arial, sans-serif;\n                        "

/-- Template text between the CSS `direction` and `text-align` declarations. -/
def htmlE : String := "\n                        "

/-- Template text from after `text-align` through the remaining style rules
and the header opening, up to the `<h1>` title interpolation. -/
def htmlF : String := "\n                        margin: 20px;\n                        line-height: 1.6;\n                    \x7d\n                    .header \x7b\n                        text-align: center;\n                        border-bottom: 2px solid #333;\n                        padding-bottom: 20px;\n                        margin-bottom: 30px;\n                    \x7d\n                    .section \x7b\n                        margin-bottom: 25px;\n                        padding: 15px;\n                        border: 1px solid #ddd;\n                        border-radius: 8px;\n                    \x7d\n                    .section-title \x7b\n                        font-weight: bold;\n                        color: #4361ee;\n                        margin-bottom: 10px;\n                        font-size: 1.2em;\n                    \x7d\n                    .confidence \x7b\n                        text-align: center;\n                        background: #f8f9fa;\n                        padding: 15px;\n                        border-radius: 8px;\n                        margin: 20px 0;\n                    \x7d\n                    .warning \x7b\n                        background: #fff3cd;\n                        border: 1px solid #ffeaa7;\n                        padding: 15px;\n                        border-radius: 8px;\n                        margin: 20px 0;\n                    \x7d\n                    @media print \x7b\n                        body \x7b margin: 0; \x7d\n                        .no-print \x7b display: none; \x7d\n                    \x7d\n                </style>\n            </head>\n            <body>\n                <div class=\"header\">\n                    <h1>"

/-- Template text between the `<h1>` title and the subtitle. -/
def htmlG : String := "</h1>\n                    <p>"

/-- Template text between the subtitle and the localized date. -/
def htmlH : String := "</p>\n                    <p>"

/-- Template text from the localized date to the confidence heading. -/
def htmlI : String := "</p>\n                </div>\n\n                <div class=\"confidence\">\n                    <h3>"

/-- Template text between the confidence heading and the `<h2>` value. -/
def htmlJ : String := "</h3>\n                    "

/-- Template text from the confidence value to the disclaimer label. -/
def htmlK : String := "\n                </div>\n\n                <div class=\"warning\">\n                    <strong>"

/-- Template text between the disclaimer label and its body text. -/
def htmlL : String := "</strong>\n                    "

/-- Template text between the disclaimer body and the sections. -/
def htmlM : String := "\n                </div>\n\n                "

/-- Template text closing the document after the sections. -/
def htmlN : String := "\n            </body>\n            </html>\n        "

/-- Everything `generatePrintableHTML` emits before the four sections:
the `<html>` opening with direction attributes, the style element, the
header block, the confidence block and the disclaimer block. -/
def htmlBeforeSections (analysisResults : AnalysisResult) (language : String) (env : JsDate) : String :=
  let direction := if language = "ar" then "rtl" else "ltr"
  let textAlign := if language = "ar" then "right" else "left"
  htmlA ++ ("dir=\"" ++ direction ++ "\"") ++ htmlB ++ language ++ htmlC ++
  printableTitle language ++ htmlD ++ ("direction: " ++ direction ++ ";") ++ htmlE ++
  ("text-align: " ++ textAlign ++ ";") ++ htmlF ++ printableTitle language ++ htmlG ++
  printableSubtitle language ++ htmlH ++
  env.toLocaleDateString (if language = "ar" then "ar-SA" else "en-US") ++ htmlI ++
  confidenceTitle language ++ htmlJ ++
  ("<h2>" ++ toString analysisResults.overallConfidence ++ "%</h2>") ++ htmlK ++
  importantNoteLabel language ++ htmlL ++ importantNoteBody language ++ htmlM

/-- `generatePrintableHTML(analysisResults, language)`: the complete
self-contained printable HTML document. -/
def generatePrintableHTML (analysisResults : AnalysisResult) (language : String) (env : JsDate) : String :=
  htmlBeforeSections analysisResults language env ++
  generateHTMLSections analysisResults language ++ htmlN

/-- The stateful wrapper of `generateFilename` on a renderer instance: the
operation reads the record and touches no state. -/
def generateFilenameOp (language : String) (env : JsDate) (s : RendererState) :
    String × RendererState :=
  (generateFilename s.record language env, s)

/-- The stateful wrapper of `generatePrintableHTML` on a renderer instance:
the operation reads the record and touches no state. -/
def renderPrintableDocumentOp (language : String) (env : JsDate) (s : RendererState) :
    String × RendererState :=
  (generatePrintableHTML s.record language env, s)

/-- The observable effects applied to the window opened by
`printHTMLReport`: content written into its document, the document closed,
and printing triggered from the `onload` callback. -/
structure PrintWindow where
  written : List String
  docClosed : Bool
  printedOnLoad : Bool

/-- The `TypeError` raised by `printableWindow.document` when `window.open`
returned `null` (popup blocked). -/
def nullWindowError : JsError :=
  { name := "TypeError", message := "Cannot read properties of null (reading \x27document\x27)" }

/-- `printHTMLReport(analysisResults, language)`: opens a window (`opened`
is what `window.open` returned), renders the printable HTML into it and
triggers printing on load. With `opened = none` the unguarded member
access `printableWindow.document` throws a `TypeError` to the caller. -/
def printHTMLReport (language : String) (env : JsDate) (opened : Option PrintWindow)
    (s : RendererState) : Except JsError PrintWindow × RendererState :=
  match opened with
  | none => (Except.error nullWindowError, s)
  | some w =>
      let htmlContent := generatePrintableHTML s.record language env
      (Except.ok { w with
                   written := w.written ++ [htmlContent]
                   docClosed := true
                   printedOnLoad := true }, s)

/-- `containsStr s pat`: `pat` occurs as a contiguous substring of `s`. -/
def containsStr (s pat : String) : Prop :=
  pat.data <:+: s.data

/-- `endsWithStr s pat`: `s` ends with `pat`. -/
def endsWithStr (s pat : String) : Prop :=
  pat.data <:+ s.data

/-- A sample analysis result used to instantiate hypotheses of the claim
theorems at concrete inputs. -/
def sampleResult : AnalysisResult :=
  { overallConfidence := 87
    breed := { name := { ar := some "بلدي", en := some "Baladi" }, confidence := 90 }
    weight := { estimated := "1.5 kg",
                method := { ar := some "تقدير بصري", en := some "Visual estimation" },
                errorMargin := "10%" }
    disease := { name := { ar := some "مرض نيوكاسل", en := some "Newcastle Disease" },
                 probability := 75 }
    treatment := { medication := { ar := some "إنروفلوكساسين", en := some "Enrofloxacin" },
                   dosage := { ar := some "10 ملغ", en := some "10 mg" },
                   duration := { ar := some "5 أيام", en := some "5 days" },
                   warnings := { ar := some "لا شيء", en := some "None" } } }

/-- A sample host date capability with a concrete ISO calendar date. -/
def sampleEnv : JsDate :=
  { isoDate := "2026-10-11", toLocaleDateString := fun _ => "10/11/2026" }

/-- A sample idle renderer state holding the sample record. -/
def sampleIdle : RendererState :=
  { isGenerating := false, record := sampleResult }

/-- A sample renderer state with a generation in flight. -/
def sampleBusy : RendererState :=
  { isGenerating := true, record := sampleResult }

/-- `generateReport(analysisResults, language = 'ar')`: fails fast with
`conflictError` when the busy flag is set; otherwise sets the flag, runs
the simulated generation, and clears the flag in a `finally` on both the
success and the failure path. `langArg = none` models an omitted
`language` argument, which takes the default `'ar'`. -/
def generateReport (langArg : Option String) (env : JsDate) (work : Option JsError)
    (s : RendererState) : Except JsError PDFData × RendererState :=
  let language := langArg.getD "ar"
  if s.isGenerating then
    (Except.error conflictError, s)
  else
    let res := simulatePDFGeneration language env work { s with isGenerating := true }
    (res.1, { res.2 with isGenerating := false })

/-- Every string contains itself as a substring. -/
theorem containsStr_self (s : String) : containsStr s s :=
  ⟨[], [], by simp⟩

/-- A substring of the left part is a substring of an append. -/
theorem containsStr_append_left {a pat : String} (b : String) (h : containsStr a pat) :
    containsStr (a ++ b) pat := by
  obtain ⟨u, v, huv⟩ := h
  exact ⟨u, v ++ b.data, by rw [String.data_append, ← huv]; simp⟩

/-- A substring of the right part is a substring of an append. -/
theorem containsStr_append_right {b pat : String} (a : String) (h : containsStr b pat) :
    containsStr (a ++ b) pat := by
  obtain ⟨u, v, huv⟩ := h
  exact ⟨a.data ++ u, v, by rw [String.data_append, ← huv]; simp⟩

/-- Exhibiting a string as `a ++ (pat ++ b)` shows it contains `pat`. -/
theorem containsStr_of_parts {s a pat b : String} (h : s = a ++ (pat ++ b)) :
    containsStr s pat := by
  subst h
  exact ⟨a.data, b.data, by simp⟩

/-- Exhibiting a string as `a ++ pat` shows it ends with `pat`. -/
theorem endsWithStr_of_parts {s a pat : String} (h : s = a ++ pat) :
    endsWithStr s pat := by
  subst h
  exact ⟨a.data, by simp⟩

/-- C7: when the `language` argument is omitted, `generateReport` behaves
exactly as if `'ar'` had been passed: the produced artifact (payload,
filename) and the resulting renderer state coincide. -/
theorem generateReport_default_language (env : JsDate) (work : Option JsError)
    (s : RendererState) :
    generateReport none env work s = generateReport (some "ar") env work s := rfl

/-- C10: the simulated PDF payload depends only on the language, never on
the analysis result, and it decomposes into a fixed prefix, the localized
title, and a fixed suffix, so only the title varies between languages. -/
theorem generatePDFContent_result_independent (r1 r2 : AnalysisResult) (language : String) :
    generatePDFContent r1 language = generatePDFContent r2 language ∧
    generatePDFContent r1 language = pdfPre ++ (pdfTitle language ++ pdfPost) := by
  constructor
  · rfl
  · simp only [generatePDFContent, pdfTitle, String.append_assoc]

/-- C9: no operation mutates the supplied analysis-result record:
`generateReport` leaves the record component of the state unchanged, and
`generateFilenameOp`, `renderPrintableDocumentOp` and `printHTMLReport`
leave the whole renderer state (hence the record) unchanged. -/
theorem operations_do_not_mutate_record (langArg : Option String) (language : String)
    (env : JsDate) (work : Option JsError) (opened : Option PrintWindow) (s : RendererState) :
    (generateReport langArg env work s).2.record = s.record ∧
    (generateFilenameOp language env s).2 = s ∧
    (renderPrintableDocumentOp language env s).2 = s ∧
    (printHTMLReport language env opened s).2 = s := by
  obtain ⟨flag, rec⟩ := s
  refine ⟨?_, rfl, rfl, ?_⟩
  · cases flag <;> cases work <;> simp [generateReport, simulatePDFGeneration]
  · cases opened <;> rfl

/-- C1: the busy-flag contract of `generateReport`. While a generation is
in flight (`isGenerating = true`, which is exactly the state the awaited
work step observes), a second call on the same instance fails immediately
with the conflict error and changes nothing; from an idle state the call
runs the simulated work with the flag set and clears the flag on both the
success and the failure exit path, so the state after any completed call
is idle again and a subsequent call succeeds (or propagates the work
failure) instead of failing with the conflict error, whose message carries
the text `generation already in progress`. -/
theorem generateReport_single_flight (langArg : Option String) (env : JsDate)
    (work : Option JsError) (s : RendererState) :
    (s.isGenerating = true →
      generateReport langArg env work s = (Except.error conflictError, s)) ∧
    (s.isGenerating = false →
      generateReport langArg env work s =
        ((simulatePDFGeneration (langArg.getD "ar") env work
            { isGenerating := true, record := s.record }).1,
         { (simulatePDFGeneration (langArg.getD "ar") env work
              { isGenerating := true, record := s.record }).2 with isGenerating := false }) ∧
      (generateReport langArg env work s).2.isGenerating = false ∧
      (work = none → ∃ d, (generateReport langArg env work s).1 = Except.ok d) ∧
      (∀ e, work = some e → (generateReport langArg env work s).1 = Except.error e)) ∧
    containsStr conflictError.message "generation already in progress" := by
  obtain ⟨flag, rec⟩ := s
  refine ⟨?_, ?_, containsStr_of_parts (a := "PDF ") (b := "") (by decide)⟩
  · intro h
    simp only at h
    subst h
    rfl
  · intro h
    simp only at h
    subst h
    cases work with
    | none =>
        exact ⟨rfl, rfl, fun _ => ⟨_, rfl⟩, fun e he => nomatch he⟩
    | some e0 =>
        refine ⟨rfl, rfl, ?_, ?_⟩
        · intro hc
          exact absurd hc (by simp)
        · intro e he
          injection he with h2
          subst h2
          rfl

/-- Witness for C1 at concrete inputs: a call on a busy instance fails
with the conflict error, and a call on an idle instance clears the flag
and succeeds. -/
theorem generateReport_single_flight_witness :
    generateReport none sampleEnv none sampleBusy = (Except.error conflictError, sampleBusy) ∧
    (generateReport none sampleEnv none sampleIdle).2.isGenerating = false ∧
    (∃ d, (generateReport none sampleEnv none sampleIdle).1 = Except.ok d) :=
  ⟨(generateReport_single_flight none sampleEnv none sampleBusy).1 rfl,
   ((generateReport_single_flight none sampleEnv none sampleIdle).2.1 rfl).2.1,
   ((generateReport_single_flight none sampleEnv none sampleIdle).2.1 rfl).2.2.1 rfl⟩

/-- A string s that equals the pattern contains the pattern. -/
theorem containsStr_of_eq {s pat : String} (h : s = pat) : containsStr s pat := by
  subst h
  exact containsStr_self s

/-- Every string contains the empty string. -/
theorem containsStr_nil (s : String) : containsStr s "" :=
  ⟨[], s.data, rfl⟩

/-- C2: the rendered section sequence has exactly four blocks, in the
fixed order breed, weight, disease, treatment; the block count and the
title order are independent of the field values of the record, and the
printable document embeds exactly this section string between a fixed
head and a fixed closing. -/
theorem generateHTMLSections_four_fixed (r r2 : AnalysisResult) (language : String)
    (env : JsDate) :
    (sectionsList r language).length = 4 ∧
    (sectionsList r language).map HtmlSection.title =
      [breedTitle language, weightTitle language, diseaseTitle language,
       treatmentTitle language] ∧
    (sectionsList r language).map HtmlSection.title =
      (sectionsList r2 language).map HtmlSection.title ∧
    generateHTMLSections r language =
      renderSection (breedSection r language) ++ renderSection (weightSection r language) ++
      renderSection (diseaseSection r language) ++ renderSection (treatmentSection r language) ∧
    generatePrintableHTML r language env =
      htmlBeforeSections r language env ++ generateHTMLSections r language ++ htmlN := by
  refine ⟨rfl, ?_, ?_, ?_, rfl⟩
  · simp [sectionsList, breedSection, weightSection, diseaseSection, treatmentSection]
  · simp [sectionsList, breedSection, weightSection, diseaseSection, treatmentSection]
  · simp [generateHTMLSections, sectionsList, String.join, String.append_assoc]

/-- C5: `generatePrintableHTML` is a pure function of the record, the
language and the host date: its output does not depend on the rest of the
renderer state, so two renderings with the date held constant produce
byte-identical HTML, and the call leaves the renderer state unchanged. -/
theorem renderPrintableDocument_pure (language : String) (env : JsDate)
    (s1 s2 : RendererState) (h : s1.record = s2.record) :
    (renderPrintableDocumentOp language env s1).1 =
      (renderPrintableDocumentOp language env s2).1 ∧
    (renderPrintableDocumentOp language env s1).2 = s1 := by
  constructor
  · simp [renderPrintableDocumentOp, h]
  · rfl

/-- Witness for C5: rendering from a busy and from an idle state holding
the same record yields the same bytes, and mutates nothing. -/
theorem renderPrintableDocument_pure_witness :
    (renderPrintableDocumentOp "en" sampleEnv sampleBusy).1 =
      (renderPrintableDocumentOp "en" sampleEnv sampleIdle).1 ∧
    (renderPrintableDocumentOp "en" sampleEnv sampleBusy).2 = sampleBusy :=
  renderPrintableDocument_pure "en" sampleEnv sampleBusy sampleIdle rfl

/-- C8 counterexample: with the popup blocked (`window.open` returned
`null`), `printHTMLReport` does not return normally at this concrete
input, so the claim that no exception is surfaced to the caller is false:
the unguarded `printableWindow.document` access throws. -/
theorem printHTMLReport_blocked_not_silent :
    ¬ ∃ w, (printHTMLReport "en" sampleEnv none sampleIdle).1 = Except.ok w := by
  rintro ⟨w, h⟩
  simp [printHTMLReport] at h

/-- C8 (amended): when the host blocks opening the presentation surface,
no structured domain error is produced, but a host-level `TypeError` from
the `null` window member access is surfaced to the caller; the operation
does not proceed and the renderer state is unchanged. -/
theorem printHTMLReport_blocked_raises_typeError (language : String) (env : JsDate)
    (s : RendererState) :
    printHTMLReport language env none s = (Except.error nullWindowError, s) ∧
    nullWindowError.name = "TypeError" ∧ nullWindowError ≠ conflictError :=
  ⟨rfl, rfl, by simp [nullWindowError, conflictError]⟩

/-- C3: for every language the generated filename contains the host ISO
calendar date (which has the `YYYY-MM-DD` shape) and ends with `.pdf`;
when the disease name for the requested language is present the filename
contains it, and when it is absent the placeholder `unknown` is embedded
instead; for language `en` with a (non-falsy) disease name present the
filename is exactly `diagnosis-report-<name>-<date>.pdf`. -/
theorem generateFilename_spec (r : AnalysisResult) (language : String) (env : JsDate)
    (hdate : isoShapeB env.isoDate = true) :
    containsStr (generateFilename r language env) env.isoDate ∧
    isoShapeB env.isoDate = true ∧
    endsWithStr (generateFilename r language env) ".pdf" ∧
    (∀ name, r.disease.name.get language = some name →
      containsStr (generateFilename r language env) name) ∧
    (r.disease.name.get language = none →
      containsStr (generateFilename r language env) "unknown") ∧
    (language = "en" → ∀ name, r.disease.name.get "en" = some name → name ≠ "" →
      generateFilename r language env =
        "diagnosis-report-" ++ name ++ "-" ++ env.isoDate ++ ".pdf") := by
  have hsplit : generateFilename r language env =
      (if language = "ar" then "تقرير-التشخيص-" else "diagnosis-report-") ++
      jsOr (r.disease.name.get language) "unknown" ++ "-" ++ env.isoDate ++ ".pdf" := by
    simp only [generateFilename]
    by_cases hl : language = "ar" <;> simp [hl]
  refine ⟨?_, hdate, ?_, ?_, ?_, ?_⟩
  · exact containsStr_of_parts
      (a := (if language = "ar" then "تقرير-التشخيص-" else "diagnosis-report-") ++
            jsOr (r.disease.name.get language) "unknown" ++ "-")
      (b := ".pdf") (by rw [hsplit]; simp [String.append_assoc])
  · exact endsWithStr_of_parts
      (a := (if language = "ar" then "تقرير-التشخيص-" else "diagnosis-report-") ++
            jsOr (r.disease.name.get language) "unknown" ++ "-" ++ env.isoDate)
      (by rw [hsplit])
  · intro name hname
    by_cases hne : name = ""
    · subst hne
      exact containsStr_nil _
    · have hdn : jsOr (r.disease.name.get language) "unknown" = name := by
        rw [hname]; simp [jsOr, hne]
      exact containsStr_of_parts
        (a := (if language = "ar" then "تقرير-التشخيص-" else "diagnosis-report-"))
        (b := "-" ++ env.isoDate ++ ".pdf")
        (by rw [hsplit, hdn]; simp [String.append_assoc])
  · intro hnone
    have hdn : jsOr (r.disease.name.get language) "unknown" = "unknown" := by
      rw [hnone]
      rfl
    exact containsStr_of_parts
      (a := (if language = "ar" then "تقرير-التشخيص-" else "diagnosis-report-"))
      (b := "-" ++ env.isoDate ++ ".pdf")
      (by rw [hsplit, hdn]; simp only [← String.append_assoc])
  · intro hl name hname hne
    subst hl
    have hdn : jsOr (r.disease.name.get "en") "unknown" = name := by
      rw [hname]; simp [jsOr, hne]
    rw [hsplit, hdn]
    simp

/-- Witness for C3 at the scenario input: language `en`, disease name
`Newcastle Disease`, host date `2026-10-11`. -/
theorem generateFilename_spec_witness :
    containsStr (generateFilename sampleResult "en" sampleEnv) "Newcastle Disease" ∧
    containsStr (generateFilename sampleResult "en" sampleEnv) sampleEnv.isoDate ∧
    endsWithStr (generateFilename sampleResult "en" sampleEnv) ".pdf" ∧
    generateFilename sampleResult "en" sampleEnv =
      "diagnosis-report-" ++ "Newcastle Disease" ++ "-" ++ sampleEnv.isoDate ++ ".pdf" := by
  have h := generateFilename_spec sampleResult "en" sampleEnv rfl
  exact ⟨h.2.2.2.1 "Newcastle Disease" rfl, h.1, h.2.2.1,
         h.2.2.2.2.2 rfl "Newcastle Disease" rfl (by decide)⟩

/-- C4: the printable document carries layout direction `rtl` — in the
`dir` attribute, the CSS `direction` declaration, and the matching
`text-align` — exactly for language `ar`, and `ltr`/`left` for any other
language, independently of the record and the host date. -/
theorem generatePrintableHTML_direction (r : AnalysisResult) (language : String) (env : JsDate) :
    (language = "ar" →
      containsStr (generatePrintableHTML r language env) "dir=\"rtl\"" ∧
      containsStr (generatePrintableHTML r language env) "direction: rtl;" ∧
      containsStr (generatePrintableHTML r language env) "text-align: right;") ∧
    (language ≠ "ar" →
      containsStr (generatePrintableHTML r language env) "dir=\"ltr\"" ∧
      containsStr (generatePrintableHTML r language env) "direction: ltr;" ∧
      containsStr (generatePrintableHTML r language env) "text-align: left;") := by
  constructor
  · intro h
    subst h
    refine ⟨?_, ?_, ?_⟩
    · simp only [generatePrintableHTML, htmlBeforeSections]
      iterate 25 apply containsStr_append_left
      apply containsStr_append_right
      exact containsStr_of_eq (by decide)
    · simp only [generatePrintableHTML, htmlBeforeSections]
      iterate 19 apply containsStr_append_left
      apply containsStr_append_right
      exact containsStr_of_eq (by decide)
    · simp only [generatePrintableHTML, htmlBeforeSections]
      iterate 17 apply containsStr_append_left
      apply containsStr_append_right
      exact containsStr_of_eq (by decide)
  · intro h
    refine ⟨?_, ?_, ?_⟩
    · simp only [generatePrintableHTML, htmlBeforeSections, if_neg h]
      iterate 25 apply containsStr_append_left
      apply containsStr_append_right
      exact containsStr_of_eq (by decide)
    · simp only [generatePrintableHTML, htmlBeforeSections, if_neg h]
      iterate 19 apply containsStr_append_left
      apply containsStr_append_right
      exact containsStr_of_eq (by decide)
    · simp only [generatePrintableHTML, htmlBeforeSections, if_neg h]
      iterate 17 apply containsStr_append_left
      apply containsStr_append_right
      exact containsStr_of_eq (by decide)

/-- Witness for C4: the sample record rendered with `ar` carries the rtl
direction attribute and with `en` the ltr one. -/
theorem generatePrintableHTML_direction_witness :
    containsStr (generatePrintableHTML sampleResult "ar" sampleEnv) "dir=\"rtl\"" ∧
    containsStr (generatePrintableHTML sampleResult "en" sampleEnv) "dir=\"ltr\"" :=
  ⟨((generatePrintableHTML_direction sampleResult "ar" sampleEnv).1 rfl).1,
   ((generatePrintableHTML_direction sampleResult "en" sampleEnv).2 (by decide)).1⟩

/-- C6: when `overallConfidence = 87`, the confidence block of the
printable document renders the literal text `87%` (inside its `<h2>`
element), for every language. -/
theorem generatePrintableHTML_confidence (r : AnalysisResult) (language : String)
    (env : JsDate) (h : r.overallConfidence = 87) :
    containsStr (generatePrintableHTML r language env) "87%" ∧
    containsStr (generatePrintableHTML r language env) "<h2>87%</h2>" := by
  have h87 : toString r.overallConfidence = "87" := by rw [h]; rfl
  constructor
  · simp only [generatePrintableHTML, htmlBeforeSections]
    iterate 7 apply containsStr_append_left
    apply containsStr_append_right
    rw [h87]
    exact containsStr_of_parts (a := "<h2>") (b := "</h2>") (by decide)
  · simp only [generatePrintableHTML, htmlBeforeSections]
    iterate 7 apply containsStr_append_left
    apply containsStr_append_right
    rw [h87]
    exact containsStr_of_eq (by decide)

/-- Witness for C6 at the sample record, whose overall confidence is 87. -/
theorem generatePrintableHTML_confidence_witness :
    containsStr (generatePrintableHTML sampleResult "en" sampleEnv) "87%" :=
  (generatePrintableHTML_confidence sampleResult "en" sampleEnv rfl).1
